import Mathlib

/-!
Verification of the Retty reactor/pipeline core against its specification.

The definitions below are a shallow embedding of the Rust sources:
  src/errors.rs, src/transport/channel.rs, src/core/eventloop.rs,
  src/core/bootstrap.rs, src/channel/handler.rs, src/channel/handler_pipe.rs,
  src/channel/channel_handler_ctx.rs,
  src/channel/codec/first_integer_length_field_decoder.rs.
Machine integers are modelled as Nat with explicit wrap where it matters
(u64 / usize arithmetic). Byte buffers are lists of Nat (each byte < 256 on
concrete inputs). Heap-shared state (the per-token channel and pipeline
registries) is modelled by explicit state passing.
-/

namespace Retty

/-- Error categories used by the framework. Models std::io::ErrorKind as
restricted to the categories named by the spec (section 7) plus the catch-all
used by src/errors.rs. -/
inductive ErrKind where
  | wouldBlock
  | timedOut
  | connectionReset
  | unexpectedEof
  | decodeErr
  | other
  deriving DecidableEq

/-- Models RettyErrorKind from src/errors.rs: a category plus a human message. -/
structure RettyErrorKind where
  kind : ErrKind
  message : String
  deriving DecidableEq

/-- Models bytebuf_rs::bytebuf::ByteBuf, an external crate referenced only
through its contract (spec section 1): a byte vector with a reader index, a
writer index and a marked reader index. -/
structure ByteBuf where
  data : List Nat
  readerIndex : Nat
  writerIndex : Nat
  markedReaderIndex : Nat
  deriving DecidableEq

/-- ByteBuf::new_from over a byte slice: reader at 0, writer at the length. -/
def ByteBuf.new_from (bs : List Nat) : ByteBuf :=
  ⟨bs, 0, bs.length, 0⟩

/-- ByteBuf::readable_bytes: bytes between reader and writer index. -/
def ByteBuf.readableBytes (b : ByteBuf) : Nat :=
  b.writerIndex - b.readerIndex

/-- ByteBuf::available_bytes: the readable slice of the underlying vector. -/
def ByteBuf.availableBytes (b : ByteBuf) : List Nat :=
  (b.data.drop b.readerIndex).take b.readableBytes

/-- Models struct Channel from src/transport/channel.rs. The mio TcpStream is
abstracted to a socket handle (try_clone duplicates the descriptor onto the
same underlying socket, so a clone keeps the same handle value); the owning
event loop and the outbound context pipe are abstracted to identifiers. -/
structure Channel where
  id : Nat
  stream : Nat
  closed : Bool
  eventloop : Nat
  outbound_context_pipe : Option Nat
  deriving DecidableEq

/-- Models impl Clone for Channel (src/transport/channel.rs lines 34-48):
id, stream handle, event loop and outbound pipe are carried over, while the
closed field is hard-coded to false. -/
def Channel.clone (c : Channel) : Channel :=
  ⟨c.id, c.stream, false, c.eventloop, c.outbound_context_pipe⟩

/-- Models Channel::close (src/transport/channel.rs lines 99-101): sets the
closed flag; nothing else. -/
def Channel.close (c : Channel) : Channel :=
  { c with closed := true }

/-- Models Channel::is_closed (src/transport/channel.rs lines 103-105). -/
def Channel.is_closed (c : Channel) : Bool :=
  c.closed

/-- Models Channel::write_bytebuf (src/transport/channel.rs lines 70-73):
stream.write(buf.available_bytes()) followed by flush. It does not consult
the closed flag. The result is the unchanged channel paired with the bytes
handed to the socket. -/
def Channel.write_bytebuf (c : Channel) (buf : ByteBuf) : Channel × List Nat :=
  (c, buf.availableBytes)

/-- Outcome of Channel::read, i.e. stream.read_to_end(&mut buf) on the
non-blocking socket: Ok(0) is peer close, Ok(n) returns with n bytes read,
WouldBlock returns the bytes read so far in buf, other errors are surfaced.
The payload is the content of the scratch buffer afterwards. -/
inductive ReadOutcome where
  | ok (bytes : List Nat)
  | wouldBlock (bytes : List Nat)
  | ioError (e : RettyErrorKind) (bytes : List Nat)
  deriving DecidableEq

/-- Scratch-buffer content for each read outcome. -/
def ReadOutcome.bytes : ReadOutcome → List Nat
  | .ok bs => bs
  | .wouldBlock bs => bs
  | .ioError _ bs => bs

/-- Head invocations made on the inbound pipeline of one connection
(spec section 4.F). -/
inductive HeadEv where
  | active
  | read (bytes : List Nat)
  | exception (e : RettyErrorKind)
  | inactive
  deriving DecidableEq

/-- Per-token slice of the event-loop registries (src/core/eventloop.rs lines
19-21): the channel_map entry for a token and whether the
channel_inbound_handler_ctx_pipe_map entry for that token is present. -/
structure TokenState where
  channel : Option Channel
  pipe : Bool
  deriving DecidableEq

/-- Models EventLoop::attach (src/core/eventloop.rs lines 45-64): register the
channel, fire head_channel_active, insert the pipeline entry, insert the
channel entry. The head_channel_active entry point of the context pipe
(its module is imported as channel_handler_ctx_pipe) delivers the event at
the head context. -/
def attach (ch : Channel) : TokenState × List HeadEv :=
  ({ channel := some ch, pipe := true }, [HeadEv.active])

/-- Models the body of the poll-event loop in EventLoop::run
(src/core/eventloop.rs lines 79-123) for one token and one readable event:
remove the channel from channel_map; on Ok(0) close it; re-insert it only if
still open; then dispatch on a CLONE of the channel (Channel::clone resets
closed to false): fire head_channel_inactive if the clone is closed, else
fire head_channel_exception when an error was captured, otherwise
head_channel_read with the scratch buffer. The pipeline map entry is only
read (get_mut), never removed. -/
def processEvent (st : TokenState) (o : ReadOutcome) : TokenState × List HeadEv :=
  match st.channel with
  | none => (st, [])
  | some ch0 =>
    let ch : Channel :=
      match o with
      | ReadOutcome.ok [] => ch0.close
      | _ => ch0
    let err : Option RettyErrorKind :=
      match o with
      | ReadOutcome.ioError e _ => some e
      | _ => none
    let chanEntry : Option Channel := if ch.is_closed then none else some ch
    let chClone : Channel := ch.clone
    let evs : List HeadEv :=
      (if chClone.is_closed then [HeadEv.inactive] else []) ++
      (if chClone.is_closed then []
       else
         match err with
         | some e => [HeadEv.exception e]
         | none => [HeadEv.read o.bytes])
    ({ channel := chanEntry, pipe := st.pipe }, evs)

/-- Iterated poll events for one token, accumulating the head invocations. -/
def runEvents : TokenState → List ReadOutcome → TokenState × List HeadEv
  | st, [] => (st, [])
  | st, o :: os =>
    ((runEvents (processEvent st o).1 os).1,
     (processEvent st o).2 ++ (runEvents (processEvent st o).1 os).2)

/-- Head-invocation trace of one connection: attach, then the poll events. -/
def connTrace (ch : Channel) (os : List ReadOutcome) : List HeadEv :=
  (attach ch).2 ++ (runEvents (attach ch).1 os).2

/-- Reads and exceptions: the events permitted between active and inactive. -/
def isMid : HeadEv → Bool
  | .read _ => true
  | .exception _ => true
  | _ => false

/-- Membership test for the regular language active (read | exception)*
inactive claimed by the spec (sections 4.F and 8). -/
def inClaimLang (t : List HeadEv) : Bool :=
  match t with
  | HeadEv.active :: rest =>
    rest.dropLast.all isMid && (rest.getLast? == some HeadEv.inactive)
  | _ => false

/-- Models usize::MAX on the 64-bit target. -/
def USIZE_MAX : Nat := 2 ^ 64 - 1

/-- Models Bootstrap::incr_id (src/core/bootstrap.rs lines 290-297). -/
def incr_id (cur : Nat) : Nat :=
  if cur = USIZE_MAX then 0 else cur + 1

/-- Models the accept loop body of one poll iteration in Bootstrap::start
(src/core/bootstrap.rs lines 234-285): the worker w was chosen before the
iteration, and each accepted connection receives the current ch_id, is
attached to w, and ch_id is incremented. Returns the (id, worker) pairs. -/
def acceptLoop : Nat → Nat → Nat → List (Nat × Nat)
  | _, _, 0 => []
  | chId, w, Nat.succ k => (chId, w) :: acceptLoop (incr_id chId) w k

/-- One poll iteration of the acceptor accepting k connections: the worker is
computed once, before the events are processed, as
work_group[ch_id % work_group.len()] from the ch_id at iteration start
(src/core/bootstrap.rs lines 234-237). -/
def acceptBatch (chId wlen k : Nat) : List (Nat × Nat) :=
  acceptLoop chId (chId % wlen) k

/-- Models struct EventLoopGroup (src/core/eventloop.rs lines 137-142); the
loops are abstracted to their indices. -/
structure EventLoopGroup where
  group : List Nat
  evenetloop_num : Nat
  next : Nat
  deriving DecidableEq

/-- Models EventLoopGroup::new (src/core/eventloop.rs lines 145-155). -/
def EventLoopGroup.new (n : Nat) : EventLoopGroup :=
  ⟨List.range n, n, 0⟩

/-- Models EventLoopGroup::next (src/core/eventloop.rs lines 162-168): reset
the cursor only when it exceeds the loop count, advance it, then index the
vector with unwrap. A none result models the panic of
group.get(next - 1).unwrap() when the index is out of range. -/
def EventLoopGroup.nextLoop (g : EventLoopGroup) : Option (Nat × EventLoopGroup) :=
  let n0 : Nat := if g.next > g.evenetloop_num then 0 else g.next
  let n1 : Nat := n0 + 1
  match g.group.get? (n1 - 1) with
  | some l => some (l, { g with next := n1 })
  | none => none

/-- Results of k successive next() calls; a panic (none) kills the calling
thread, so nothing follows it. -/
def runNext : EventLoopGroup → Nat → List (Option Nat)
  | _, 0 => []
  | g, Nat.succ k =>
    match g.nextLoop with
    | some (l, g') => some l :: runNext g' k
    | none => [none]

/-- Per-connection state visible to the idle scanner. Modelled from the spec:
the accessors last_read_time_ms and read_idle_timeout_ms called by the idle
task of Bootstrap::start are not present in the src/transport/channel.rs
variant shipped under src/, so the last-read timestamp and the configured
read-idle timeout (spec sections 3 and 4.I) are carried here as the fields
the missing accessors would read; pipeId abstracts the in_pipe of the
Sessions entry and closed mirrors the channel closed flag. -/
structure Session where
  lastReadTime : Nat
  readIdleTimeoutMs : Nat
  pipeId : Nat
  closed : Bool
  deriving DecidableEq

/-- Modulus of u64 arithmetic. -/
def U64 : Nat := 2 ^ 64

/-- Wrapping u64 subtraction, as performed by
(Local::now().timestamp_millis() as u64).sub(channel.last_read_time_ms())
in the idle task (src/core/bootstrap.rs line 182). Arguments are u64 values
(below U64). -/
def wsub (a b : Nat) : Nat := (a + U64 - b) % U64

/-- The idle test of the scan sweep (src/core/bootstrap.rs line 182):
now - lastReadTime strictly greater than readIdleTimeoutMs. -/
def isIdle (now : Nat) (s : Session) : Bool :=
  decide (wsub now s.lastReadTime > s.readIdleTimeoutMs)

/-- Ids enqueued by one scan sweep over the connection registry
(src/core/bootstrap.rs lines 179-185). -/
def scanIdle (now : Nat) (reg : List (Nat × Session)) : List Nat :=
  (reg.filter (fun p => isIdle now p.2)).map Prod.fst

/-- The queue after one sweep: sends on the bounded(1024) internal channel;
entries beyond the capacity do not fit (the send call cannot complete). -/
def enqueueScan (queue : List Nat) (now : Nat) (reg : List (Nat × Session)) : List Nat :=
  (queue ++ scanIdle now reg).take 1024

/-- Registry lookup, modelling HashMap access by key. -/
def lookupSess : List (Nat × Session) → Nat → Option Session
  | [], _ => none
  | p :: ps, k => if p.1 = k then some p.2 else lookupSess ps k

/-- Registry removal, modelling channel_container.remove(&key)
(src/core/bootstrap.rs line 189); keys are unique in a map, so removal is
dropping the entries with that key. -/
def removeSess (reg : List (Nat × Session)) (k : Nat) : List (Nat × Session) :=
  reg.filter (fun p => p.1 != k)

/-- Models the dequeue branch of the idle task (src/core/bootstrap.rs lines
186-201): remove the session for the dequeued key from the registry and
fire a TimedOut "ReadIdleTimeout" error into its inbound pipeline head.
Returns the new registry and the (pipe, error) firings; no channel close
happens here. -/
def dequeueStep (reg : List (Nat × Session)) (key : Nat) :
    List (Nat × Session) × List (Nat × RettyErrorKind) :=
  match lookupSess reg key with
  | some s => (removeSess reg key, [(s.pipeId, ⟨ErrKind.timedOut, "ReadIdleTimeout"⟩)])
  | none => (reg, [])

/-- Models ChannelInboundHandlerPipe::add_first / insert(0,h)
(src/channel/handler_pipe.rs lines 23-25). -/
def add_first (h : String) (pipe : List String) : List String := h :: pipe

/-- Models add_last / push (src/channel/handler_pipe.rs lines 19-21). -/
def add_last (pipe : List String) (h : String) : List String := pipe ++ [h]

/-- Models the context-construction loop of Bootstrap::create_channel_*_ctx_pipe
(src/core/bootstrap.rs lines 314-326 and 391-402): repeatedly remove(0) from
the handler pipe and add_last the wrapping context. -/
def drainToCtxs : List String → List String → List String
  | [], acc => acc
  | h :: t, acc => drainToCtxs t (add_last acc h)

/-- Context order built by Bootstrap::create_channel_inbound_ctx_pipe
(src/core/bootstrap.rs lines 302-370): the built-in HEAD handler is
prepended to the user handlers, then contexts are chained in that order with
ctx[i].next_ctx = ctx[i+1]. -/
def inboundCtxOrder (users : List String) : List String :=
  drainToCtxs (add_first "HEAD" users) []

/-- Context order built by Bootstrap::create_channel_outbound_ctx_pipe
(src/core/bootstrap.rs lines 375-445): the user handler list is reversed and
the built-in TAIL writer appended last. -/
def outboundCtxOrder (users : List String) : List String :=
  drainToCtxs (add_last users.reverse "TAIL") []

/-- Traversal by next links: the head entry point invokes the context at
index 0 and each handler forwards to its next context
(src/channel/channel_handler_ctx.rs lines 83-92 and 178-187; the fire
methods silently drop the event when next_ctx is None). Returns the handler
ids in delivery order; fuel bounds the walk. -/
def visitFrom (ctxs : List String) : Nat → Nat → List String
  | 0, _ => []
  | Nat.succ fuel, i =>
    match ctxs.get? i with
    | some h => h :: visitFrom ctxs fuel (i + 1)
    | none => []

/-- Delivery order of one event entering at the head of a context pipe. -/
def headDelivery (ctxs : List String) : List String :=
  visitFrom ctxs ctxs.length 0

/-- Big-endian u32 at offset i of a byte list (ByteBuf::read_u32_be). -/
def be32 (l : List Nat) (i : Nat) : Nat :=
  (l.getD i 0) * 16777216 + (l.getD (i + 1) 0) * 65536 +
    (l.getD (i + 2) 0) * 256 + l.getD (i + 3) 0

/-- One downstream firing made by the decoder: the reader index, writer index,
decoded length-field value and underlying bytes of the ByteBuf handed to
fire_channel_read. -/
structure FireEvt where
  reader : Nat
  writer : Nat
  pktLen : Nat
  data : List Nat
  deriving DecidableEq

/-- Models the frame loop of FirstIntegerLengthFieldDecoder::channel_read
(src/channel/codec/first_integer_length_field_decoder.rs lines 59-74):
return when fewer than 4 readable bytes; mark, read the big-endian u32
length, reset (net effect: the length is peeked at the reader index); return
when readable bytes are fewer than the length; otherwise fire downstream.
The downstream handler advances the reader index past the 4 + L bytes of the
fired frame (the behaviour the claim assumes). If reader equals writer the
accumulator is reset and the loop returns, else it continues. The Bool
result records whether the accumulator was reset. -/
def decodeLoop : Nat → ByteBuf → List FireEvt × Bool
  | 0, _ => ([], false)
  | Nat.succ fuel, bb =>
    if bb.readableBytes < 4 then ([], false)
    else
      let pkt : Nat := be32 bb.data bb.readerIndex
      if bb.readableBytes < pkt then ([], false)
      else
        let evt : FireEvt := ⟨bb.readerIndex, bb.writerIndex, pkt, bb.data⟩
        let bb' : ByteBuf := { bb with readerIndex := bb.readerIndex + 4 + pkt }
        if bb'.readerIndex == bb'.writerIndex then ([evt], true)
        else
          let res := decodeLoop fuel bb'
          (evt :: res.1, res.2)

/-- Decoder state: the accumulation buffer all_buf
(src/channel/codec/first_integer_length_field_decoder.rs lines 13-15). -/
structure DecState where
  all_buf : List Nat
  deriving DecidableEq

/-- Models FirstIntegerLengthFieldDecoder::channel_read for a ByteBuf message
(lines 49-74): append the chunk bytes to all_buf, wrap all_buf in a fresh
ByteBuf, run the frame loop; all_buf is cleared only when the loop consumed
the buffer completely. -/
def decoderRead (st : DecState) (chunk : List Nat) : DecState × List FireEvt :=
  let all : List Nat := st.all_buf ++ chunk
  let r := decodeLoop (all.length + 1) (ByteBuf.new_from all)
  (⟨if r.2 then [] else all⟩, r.1)

/-- All downstream firings produced when the given chunks arrive in order at
a fresh decoder. -/
def decoderRun (chunks : List (List Nat)) : List FireEvt :=
  (chunks.foldl
    (fun acc chunk =>
      ((decoderRead acc.1 chunk).1, acc.2 ++ (decoderRead acc.1 chunk).2))
    (⟨[]⟩, [])).2

/-- Concrete channel used by the counterexample evaluations. -/
def ch0 : Channel := ⟨1, 7, false, 0, none⟩

/-- Concrete closed channel for the write-after-close evaluation. -/
def chC : Channel := ⟨2, 8, true, 0, some 5⟩

/-- Concrete non-empty buffer for the write-after-close evaluation. -/
def bufC : ByteBuf := ByteBuf.new_from [1, 2, 3]

/-- Concrete registry for the idle-scanner witness: connection 1 has been
silent for 4000 ms against a 2000 ms timeout, connection 2 is fresh. -/
def regW : List (Nat × Session) :=
  [(1, ⟨1000, 2000, 11, false⟩), (2, ⟨4500, 2000, 12, false⟩)]

/-- Every head invocation emitted by one poll event is a read or an
exception: the inactive branch is guarded by the closed flag of a fresh
Channel clone, which Channel.clone hard-codes to false. -/
theorem processEvent_all_mid (st : TokenState) (o : ReadOutcome) :
    ((processEvent st o).2).all isMid = true := by
  obtain ⟨chan, p⟩ := st
  cases chan with
  | none => rfl
  | some ch =>
    cases o with
    | ok bs => cases bs <;> rfl
    | wouldBlock bs => rfl
    | ioError e bs => rfl

/-- Every head invocation emitted across any sequence of poll events is a
read or an exception. -/
theorem runEvents_all_mid (os : List ReadOutcome) :
    ∀ st : TokenState, ((runEvents st os).2).all isMid = true := by
  induction os with
  | nil => intro st; rfl
  | cons o os ih =>
    intro st
    have h1 := processEvent_all_mid st o
    have h2 := ih (processEvent st o).1
    simp only [runEvents, List.all_append, h1, h2, Bool.and_self]

/-- The construction loop moves handlers to the context list in order. -/
theorem drainToCtxs_eq (l : List String) : ∀ acc, drainToCtxs l acc = acc ++ l := by
  induction l with
  | nil => intro acc; simp [drainToCtxs]
  | cons h t ih =>
    intro acc
    simp [drainToCtxs, add_last, ih]

/-- Shifting the start index by one skips the first context. -/
theorem visitFrom_shift (a : String) (l : List String) :
    ∀ (fuel i : Nat), visitFrom (a :: l) fuel (i + 1) = visitFrom l fuel i := by
  intro fuel
  induction fuel with
  | zero => intro i; rfl
  | succ f ih =>
    intro i
    simp only [visitFrom, List.get?_cons_succ]
    cases h : l.get? i with
    | none => rfl
    | some x => simp [ih]

/-- Next-link traversal from the head visits the whole context list in
order. -/
theorem visitFrom_self : ∀ l : List String, visitFrom l l.length 0 = l := by
  intro l
  induction l with
  | nil => rfl
  | cons a t ih =>
    show (match (a :: t).get? 0 with
          | some h => h :: visitFrom (a :: t) t.length (0 + 1)
          | none => []) = a :: t
    rw [show (a :: t).get? 0 = some a from rfl]
    rw [visitFrom_shift a t t.length 0, ih]

/-- Wrapping u64 subtraction agrees with Nat subtraction when the minuend is
a u64 value at least as large as the subtrahend. -/
theorem wsub_eq_sub {a b : Nat} (hba : b ≤ a) (ha : a < U64) : wsub a b = a - b := by
  unfold wsub
  have h1 : a + U64 - b = (a - b) + U64 := by omega
  rw [h1, Nat.add_mod_right]
  exact Nat.mod_eq_of_lt (by omega)

/-- The accept loop of one poll iteration attaches every connection to the
worker that was fixed before the loop started. -/
theorem acceptLoop_worker (w : Nat) : ∀ (k chId : Nat),
    ((acceptLoop chId w k).all (fun p => p.2 == w)) = true := by
  intro k
  induction k with
  | zero => intro chId; rfl
  | succ n ih =>
    intro chId
    simp [acceptLoop, ih]

/-- Claim C1: on a poll event whose read returns Ok(0) the event loop is
claimed to mark the channel closed, fire headChannelInactive and remove both
registry entries. Counterexample at a concrete open channel and an Ok(0)
read: the channel entry is removed, but the inbound-pipeline entry stays and
headChannelInactive is not among the fired events. -/
theorem c1_counterexample :
    (processEvent ⟨some ch0, true⟩ (ReadOutcome.ok [])).1.channel = none
    ∧ (processEvent ⟨some ch0, true⟩ (ReadOutcome.ok [])).1.pipe = true
    ∧ HeadEv.inactive ∉ (processEvent ⟨some ch0, true⟩ (ReadOutcome.ok [])).2 := by
  decide

/-- Claim C1 (amended): on a poll event whose read returns Ok(0) the event
loop marks the channel closed and removes the channel registry entry, but it
fires an empty-buffer headChannelRead instead of headChannelInactive (the
closed check runs on a clone whose closed flag was reset by Channel.clone),
and the inbound-pipeline registry entry is left in place. -/
theorem c1_amended_peer_close (ch : Channel) (p : Bool) :
    processEvent ⟨some ch, p⟩ (ReadOutcome.ok []) = (⟨none, p⟩, [HeadEv.read []]) := rfl

/-- Claim C2: the length-prefix decoder is claimed to deliver, for every
split of a stream of 4-byte big-endian length-prefixed frames, each frame
downstream exactly once and in order. Evaluation at the failing input: the
9-byte frame 00 00 00 05 h e l l o split into a 6-byte and a 3-byte chunk
produces two downstream firings for the one frame, and the first firing
happens while only 6 of the 9 frame bytes are buffered (the completeness
check compares the readable bytes against L instead of 4 + L). -/
theorem c2_decoder_failing_input :
    decoderRun [[0, 0, 0, 5, 104, 101], [108, 108, 111]]
      = [⟨0, 6, 5, [0, 0, 0, 5, 104, 101]⟩,
         ⟨0, 9, 5, [0, 0, 0, 5, 104, 101, 108, 108, 111]⟩]
    ∧ ((decoderRun [[0, 0, 0, 5, 104, 101], [108, 108, 111]]).all
        (fun e => decide (e.reader + 4 + e.pktLen ≤ e.writer))) = false := by
  decide

/-- Claim C3: the head invocations of one connection are claimed to form the
language active (read | exception)* inactive. Evaluation at a peer close:
attach followed by an Ok(0) read yields the trace [active, read(empty)],
which is not in the language, while the channel entry is gone (the
connection has ended); moreover for every event sequence the trace starts
with active and everything after it is a read or an exception, so inactive
is never fired. -/
theorem c3_trace_eval :
    connTrace ch0 [ReadOutcome.ok []] = [HeadEv.active, HeadEv.read []]
    ∧ inClaimLang (connTrace ch0 [ReadOutcome.ok []]) = false
    ∧ (runEvents (attach ch0).1 [ReadOutcome.ok []]).1.channel = none
    ∧ ∀ (ch : Channel) (os : List ReadOutcome),
        (connTrace ch os).head? = some HeadEv.active
        ∧ ((connTrace ch os).tail.all isMid) = true := by
  refine ⟨by decide, by decide, by decide, ?_⟩
  intro ch os
  refine ⟨rfl, ?_⟩
  show ((runEvents ⟨some ch, true⟩ os).2).all isMid = true
  exact runEvents_all_mid os ⟨some ch, true⟩

/-- Claim C4: with inbound user handlers [A, B, C] a read entering at the
head is delivered in order HEAD, A, B, C, and with outbound user handlers
[X, Y, Z] a write entering the outbound pipeline is delivered in order Z, Y,
X, TAIL, because the outbound context list is the reversed user list with
the tail writer appended; stated for the concrete lists of the claim and for
arbitrary user handler lists. -/
theorem c4_pipeline_order :
    (∀ users : List String, headDelivery (inboundCtxOrder users) = "HEAD" :: users)
    ∧ (∀ users : List String,
        headDelivery (outboundCtxOrder users) = users.reverse ++ ["TAIL"])
    ∧ headDelivery (inboundCtxOrder ["A", "B", "C"]) = ["HEAD", "A", "B", "C"]
    ∧ headDelivery (outboundCtxOrder ["X", "Y", "Z"]) = ["Z", "Y", "X", "TAIL"] := by
  refine ⟨?_, ?_, by decide, by decide⟩
  · intro users
    unfold headDelivery inboundCtxOrder add_first
    rw [drainToCtxs_eq, List.nil_append]
    exact visitFrom_self ("HEAD" :: users)
  · intro users
    unfold headDelivery outboundCtxOrder add_last
    rw [drainToCtxs_eq, List.nil_append]
    exact visitFrom_self (users.reverse ++ ["TAIL"])

/-- Claim C5: write_bytebuf on a closed channel is claimed to be a no-op
that sends nothing to the socket. Counterexample at a concrete closed
channel and a 3-byte buffer: the bytes are handed to the socket anyway. -/
theorem c5_counterexample :
    chC.is_closed = true
    ∧ (Channel.write_bytebuf chC bufC).2 = [1, 2, 3]
    ∧ (Channel.write_bytebuf chC bufC).2 ≠ [] := by
  refine ⟨rfl, rfl, by decide⟩

/-- Claim C5 (amended): the closed flag is monotonic on a channel value —
close sets it and write_bytebuf leaves it set — but write_bytebuf does not
consult the flag: on a closed channel it still hands the readable bytes of
the buffer to the socket, so writes are not dropped. -/
theorem c5_amended_write_not_dropped (c : Channel) (b : ByteBuf)
    (h : c.is_closed = true) :
    (Channel.close c).is_closed = true
    ∧ (Channel.write_bytebuf c b).1.is_closed = true
    ∧ (Channel.write_bytebuf c b).2 = b.availableBytes :=
  ⟨rfl, h, rfl⟩

/-- Witness for the amended claim C5 at the concrete closed channel chC. -/
theorem c5_amended_witness :
    chC.is_closed = true
    ∧ ((Channel.close chC).is_closed = true
       ∧ (Channel.write_bytebuf chC bufC).1.is_closed = true
       ∧ (Channel.write_bytebuf chC bufC).2 = bufC.availableBytes) :=
  ⟨rfl, c5_amended_write_not_dropped chC bufC rfl⟩

/-- Claim C6: next() on a group of N event loops is claimed to cycle
0, 1, ..., N-1, 0, ... and never fail. Evaluation at N = 2: the first two
calls return loops 0 and 1, and the third call fails (the cursor test uses
strictly-greater, so the cursor is not reset and group.get(2).unwrap()
panics) instead of returning loop 0. -/
theorem c6_next_panics_eval :
    runNext (EventLoopGroup.new 2) 3 = [some 0, some 1, none] := by
  decide

/-- Claim C7: a WouldBlock read error is claimed never to surface as an
exception and headChannelRead is claimed to fire only when bytes were read.
Counterexample at a WouldBlock with an empty scratch buffer: the only fired
event is headChannelRead with the empty buffer. -/
theorem c7_counterexample :
    (processEvent ⟨some ch0, true⟩ (ReadOutcome.wouldBlock [])).2 = [HeadEv.read []]
    ∧ HeadEv.read [] ∈ (processEvent ⟨some ch0, true⟩ (ReadOutcome.wouldBlock [])).2 := by
  decide

/-- Claim C7 (amended): a WouldBlock read result is never surfaced as an
exception, but it is not a no-op either — the event loop always fires
headChannelRead with exactly the scratch-buffer content, including an empty
buffer when nothing was read. -/
theorem c7_amended_wouldblock (ch : Channel) (p : Bool) (bs : List Nat) :
    (processEvent ⟨some ch, p⟩ (ReadOutcome.wouldBlock bs)).2 = [HeadEv.read bs] := rfl

/-- Claim C8: the idle scanner enqueues exactly the connections whose
now - lastReadTime strictly exceeds readIdleTimeoutMs (given that the
timestamps are u64 values with lastReadTime at most now and that the sweep
fits the 1024-capacity queue), and for each dequeued id it removes the
registry entry and fires a TimedOut error with message ReadIdleTimeout into
that connection's inbound pipeline head, leaving every other entry — and in
particular every channel — untouched. -/
theorem c8_idle_scanner (now key : Nat) (queue : List Nat)
    (reg : List (Nat × Session)) (s : Session)
    (h1 : ∀ p ∈ reg, p.2.lastReadTime ≤ now) (h2 : now < U64)
    (h3 : (queue ++ scanIdle now reg).length ≤ 1024)
    (h4 : lookupSess reg key = some s) :
    enqueueScan queue now reg
      = queue ++ (reg.filter
          (fun p => decide (p.2.readIdleTimeoutMs < now - p.2.lastReadTime))).map Prod.fst
    ∧ dequeueStep reg key
      = (removeSess reg key, [(s.pipeId, ⟨ErrKind.timedOut, "ReadIdleTimeout"⟩)])
    ∧ ∀ q ∈ removeSess reg key, q ∈ reg := by
  refine ⟨?_, ?_, ?_⟩
  · have hfil : reg.filter (fun p => isIdle now p.2)
        = reg.filter (fun p => decide (p.2.readIdleTimeoutMs < now - p.2.lastReadTime)) := by
      apply List.filter_congr
      intro p hp
      have hle := h1 p hp
      simp [isIdle, wsub_eq_sub hle h2, gt_iff_lt]
    unfold enqueueScan
    rw [List.take_of_length_le h3]
    unfold scanIdle
    rw [hfil]
  · unfold dequeueStep
    rw [h4]
  · intro q hq
    unfold removeSess at hq
    exact (List.mem_filter.mp hq).1

/-- Witness for claim C8 at a concrete registry with one idle and one fresh
connection, now = 5000 and key = 1. -/
theorem c8_idle_scanner_witness :
    enqueueScan [] 5000 regW
      = [] ++ (regW.filter
          (fun p => decide (p.2.readIdleTimeoutMs < 5000 - p.2.lastReadTime))).map Prod.fst
    ∧ dequeueStep regW 1
      = (removeSess regW 1, [(11, ⟨ErrKind.timedOut, "ReadIdleTimeout"⟩)])
    ∧ ∀ q ∈ removeSess regW 1, q ∈ regW :=
  c8_idle_scanner 5000 1 [] regW ⟨1000, 2000, 11, false⟩
    (by decide) (by decide) (by decide) (by decide)

/-- Claim C9: each accepted connection is claimed to be attached to
workers[own ch_id % workers.len()]. Counterexample: in one poll iteration
starting at ch_id = 1 with 2 workers, the two accepted connections receive
ids 1 and 2 but both go to worker 1, while 2 % 2 = 0. -/
theorem c9_counterexample :
    acceptBatch 1 2 2 = [(1, 1), (2, 1)]
    ∧ ((acceptBatch 1 2 2).all (fun p => p.2 == p.1 % 2)) = false := by
  decide

/-- Claim C9 (amended): the worker is chosen once per poll iteration as
workers[ch_id % workers.len()] from the ch_id at the start of the iteration;
every connection accepted in that iteration is attached to that same worker,
the first one therefore to the worker given by its own id; ids advance by
incr_id, which wraps usize::MAX to 0. -/
theorem c9_amended_per_iteration_worker (chId wlen k : Nat) :
    ((acceptBatch chId wlen k).all (fun p => p.2 == chId % wlen)) = true
    ∧ (acceptBatch chId wlen (k + 1)).head? = some (chId, chId % wlen)
    ∧ (acceptBatch chId wlen (k + 2)).get? 1 = some (incr_id chId, chId % wlen)
    ∧ incr_id USIZE_MAX = 0 := by
  refine ⟨acceptLoop_worker (chId % wlen) k chId, rfl, rfl, by simp [incr_id]⟩

/-- Claim C10: Channel clone always yields a channel whose closed flag is
false — even when the source channel is closed — while the id, the socket
handle, the owning event loop and the outbound-pipe reference are carried
over. -/
theorem c10_clone_resets_closed (c : Channel) :
    (Channel.clone c).is_closed = false
    ∧ (Channel.clone (Channel.close c)).is_closed = false
    ∧ (Channel.close c).is_closed = true
    ∧ (Channel.clone c).id = c.id
    ∧ (Channel.clone c).stream = c.stream
    ∧ (Channel.clone c).eventloop = c.eventloop
    ∧ (Channel.clone c).outbound_context_pipe = c.outbound_context_pipe :=
  ⟨rfl, rfl, rfl, rfl, rfl, rfl, rfl⟩

end Retty
